import Mathlib

/-!
# Verification of the mflib bootstrap / service-command core

Shallow embedding of `mflib/core.py` and `mflib/mflib.py` (FABRIC testbed
Measurement Framework library).  Python dictionaries holding JSON data are
modelled as association lists with Python-dict assignment semantics, strings
as Lean `String`/`List Char`, and the remote side effects of an operation as
an explicit trace of effect values.
-/

namespace Mflib

/-- JSON values, the result type of Python's `json.loads` as used by the
library.  Numeric literals keep their lexeme; the library never computes
with numbers, it only passes them through. -/
inductive Json where
  | null
  | bool (b : Bool)
  | num (lexeme : String)
  | str (s : String)
  | arr (elems : List Json)
  | obj (fields : List (String × Json))

/-- A JSON document (a Python dict), as stored in `bootstrap_status.json`. -/
abbrev Doc := List (String × Json)

/-- Embedding of `d[k]` lookup for a Python dict modelled as an association list. -/
def lookupDoc (d : Doc) (k : String) : Option Json :=
  match d with
  | [] => none
  | (k', v) :: rest => if k' = k then some v else lookupDoc rest k

/-- Embedding of `d[k] = v` assignment for a Python dict: replace in place if the key is
present, append otherwise (dict insertion order semantics). -/
def pyDictSet (d : Doc) (k : String) (v : Json) : Doc :=
  match d with
  | [] => [(k, v)]
  | (k', v') :: rest => if k' = k then (k, v) :: rest else (k', v') :: pyDictSet rest k v

/-- The test `k in bss and bss[k] == val` used by every bootstrap stage gate
(`val` is a string literal in the source). -/
def hasVal (d : Doc) (k v : String) : Bool :=
  match lookupDoc d k with
  | some (Json.str s) => s = v
  | _ => false

theorem lookupDoc_pyDictSet_self (d : Doc) (k : String) (v : Json) :
    lookupDoc (pyDictSet d k v) k = some v := by
  induction d with
  | nil => simp [pyDictSet, lookupDoc]
  | cons hd tl ih =>
    obtain ⟨k', v'⟩ := hd
    by_cases h : k' = k
    · simp [pyDictSet, lookupDoc, h]
    · simp [pyDictSet, lookupDoc, h, ih]

theorem lookupDoc_pyDictSet_ne (d : Doc) (k k' : String) (v : Json) (h : k' ≠ k) :
    lookupDoc (pyDictSet d k v) k' = lookupDoc d k' := by
  have h' : ¬k = k' := fun hh => h (Eq.symm hh)
  induction d with
  | nil => simp [pyDictSet, lookupDoc, h']
  | cons hd tl ih =>
    obtain ⟨k₀, v₀⟩ := hd
    by_cases h0 : k₀ = k
    · subst h0
      simp [pyDictSet, lookupDoc, h']
    · by_cases h1 : k₀ = k'
      · simp [pyDictSet, lookupDoc, h0, h1, h]
      · simp [pyDictSet, lookupDoc, h0, h1, ih]

theorem pyDictSet_ne_nil (d : Doc) (k : String) (v : Json) :
    pyDictSet d k v ≠ [] := by
  cases d with
  | nil => simp [pyDictSet]
  | cons hd tl =>
    obtain ⟨k', v'⟩ := hd
    by_cases h : k' = k <;> simp [pyDictSet, h]

theorem hasVal_pyDictSet_self (d : Doc) (k v : String) :
    hasVal (pyDictSet d k (Json.str v)) k v = true := by
  simp [hasVal, lookupDoc_pyDictSet_self]

theorem hasVal_pyDictSet_ne (d : Doc) (k k' : String) (v : Json) (w : String) (h : k' ≠ k) :
    hasVal (pyDictSet d k v) k' w = hasVal d k' w := by
  simp [hasVal, lookupDoc_pyDictSet_ne d k k' v h]

/-! ## Python string primitives

`str.find`, `str.rfind` and slicing, as used by `_run_service_command`
(`core.py`), with Python's exact `-1` / negative-index conventions. -/

/-- Embedding of `s.find(c)`: lowest index of `c`, or `-1`. -/
def pyFindChar (c : Char) : List Char → Int
  | [] => -1
  | x :: xs =>
    if x = c then 0
    else if pyFindChar c xs = -1 then -1 else pyFindChar c xs + 1

/-- Embedding of `s.rfind(c)`: highest index of `c`, or `-1`. -/
def pyRfindChar (c : Char) : List Char → Int
  | [] => -1
  | x :: xs =>
    if pyRfindChar c xs = -1 then (if x = c then 0 else -1) else pyRfindChar c xs + 1

/-- Normalisation of a (possibly negative) slice bound against length `n`:
negative indices count from the end, then both ends clamp to `[0, n]`. -/
def pyNorm (n i : Int) : Int :=
  if i < 0 then (if n + i < 0 then 0 else n + i) else (if i ≤ n then i else n)

/-- Python slice `s[a:b]` over a character list. -/
def pySlice (s : List Char) (a b : Int) : List Char :=
  (s.drop (pyNorm s.length a).toNat).take ((pyNorm s.length b - pyNorm s.length a).toNat)

theorem pyFindChar_lt_length (c : Char) (s : List Char) :
    pyFindChar c s < (s.length : Int) := by
  induction s with
  | nil => simp [pyFindChar]
  | cons x xs ih =>
    simp only [pyFindChar, List.length_cons]
    split_ifs <;> omega

theorem neg_one_le_pyFindChar (c : Char) (s : List Char) :
    -1 ≤ pyFindChar c s := by
  induction s with
  | nil => simp [pyFindChar]
  | cons x xs ih =>
    simp only [pyFindChar]
    split_ifs <;> omega

theorem pyRfindChar_lt_length (c : Char) (s : List Char) :
    pyRfindChar c s < (s.length : Int) := by
  induction s with
  | nil => simp [pyRfindChar]
  | cons x xs ih =>
    simp only [pyRfindChar, List.length_cons]
    split_ifs <;> omega

theorem neg_one_le_pyRfindChar (c : Char) (s : List Char) :
    -1 ≤ pyRfindChar c s := by
  induction s with
  | nil => simp [pyRfindChar]
  | cons x xs ih =>
    simp only [pyRfindChar]
    split_ifs <;> omega

theorem pyRfindChar_get (c : Char) (s : List Char) (h : 0 ≤ pyRfindChar c s) :
    s.get? (pyRfindChar c s).toNat = some c := by
  induction s with
  | nil => simp [pyRfindChar] at h
  | cons x xs ih =>
    simp only [pyRfindChar] at h ⊢
    by_cases h2 : pyRfindChar c xs = -1
    · by_cases hx : x = c
      · simp [h2, hx]
      · simp [h2, hx] at h
    · have hge : 0 ≤ pyRfindChar c xs := by
        have := neg_one_le_pyRfindChar c xs
        omega
      have hx := ih hge
      simp only [h2, if_false]
      have htn : (pyRfindChar c xs + 1).toNat = (pyRfindChar c xs).toNat + 1 := by omega
      rw [htn]
      simpa using hx

/-! ## `json.loads` (strict mode), as a fuel-based recursive-descent parser

Only the behaviour the library relies on is needed: parse a complete JSON
value, reject trailing data, reject raw control characters inside strings.
Numeric literals are kept as their lexeme. -/

/-- Is `c` a JSON whitespace character? -/
def isJsonWs (c : Char) : Bool :=
  c = ' ' || c = '\t' || c = '\n' || c = '\r'

/-- Skip JSON whitespace. -/
def skipWs : List Char → List Char
  | [] => []
  | c :: rest => if isJsonWs c then skipWs rest else c :: rest

/-- Longest digit run at the head of the input. -/
def takeDigits : List Char → List Char × List Char
  | [] => ([], [])
  | c :: rest =>
    if c.isDigit then
      match takeDigits rest with
      | (ds, r) => (c :: ds, r)
    else ([], c :: rest)

/-- Integer part of a JSON number: `0`, or a nonzero digit followed by digits. -/
def parseIntPart : List Char → Option (List Char × List Char)
  | [] => none
  | c :: rest =>
    if c = '0' then some ([c], rest)
    else if c.isDigit then
      match takeDigits rest with
      | (ds, r) => some (c :: ds, r)
    else none

/-- Lexeme of a JSON number starting at the head of the input (maximal munch;
an incomplete fraction or exponent is left unconsumed, which makes the
enclosing parse fail exactly where Python's would). -/
def parseNumberLex (s : List Char) : Option (List Char × List Char) :=
  match s with
  | '-' :: r =>
    match parseIntPart r with
    | none => none
    | some (ip, s₂) => some (parseNumberRest ('-' :: ip) s₂)
  | _ =>
    match parseIntPart s with
    | none => none
    | some (ip, s₂) => some (parseNumberRest ip s₂)
where
  /-- Optional fraction and exponent after the integer part. -/
  parseNumberRest (ip : List Char) (s₂ : List Char) : List Char × List Char :=
    let fr : List Char × List Char :=
      match s₂ with
      | '.' :: r =>
        (match takeDigits r with
         | ([], _) => ([], s₂)
         | (ds, r') => ('.' :: ds, r'))
      | _ => ([], s₂)
    let s₃ := fr.2
    let ex : List Char × List Char :=
      match s₃ with
      | e :: r =>
        if e = 'e' || e = 'E' then
          match r with
          | '+' :: rr =>
            (match takeDigits rr with
             | ([], _) => ([], s₃)
             | (ds, r') => (e :: '+' :: ds, r'))
          | '-' :: rr =>
            (match takeDigits rr with
             | ([], _) => ([], s₃)
             | (ds, r') => (e :: '-' :: ds, r'))
          | _ =>
            (match takeDigits r with
             | ([], _) => ([], s₃)
             | (ds, r') => (e :: ds, r'))
        else ([], s₃)
      | [] => ([], s₃)
    (ip ++ fr.1 ++ ex.1, ex.2)

/-- Value of a hexadecimal digit. -/
def hexVal (c : Char) : Option Nat :=
  if c.isDigit then some (c.toNat - '0'.toNat)
  else if 'a' ≤ c ∧ c ≤ 'f' then some (c.toNat - 'a'.toNat + 10)
  else if 'A' ≤ c ∧ c ≤ 'F' then some (c.toNat - 'A'.toNat + 10)
  else none

/-- Body of a JSON string after the opening quote: returns the decoded
characters and the input after the closing quote.  Raw control characters
are rejected (strict mode). -/
def parseStringBody : Nat → List Char → Option (List Char × List Char)
  | 0, _ => none
  | _, [] => none
  | fuel + 1, c :: rest =>
    if c = '"' then some ([], rest)
    else if c = '\\' then
      match rest with
      | [] => none
      | e :: rest' =>
        if e = '"' then (parseStringBody fuel rest').map (fun p => ('"' :: p.1, p.2))
        else if e = '\\' then (parseStringBody fuel rest').map (fun p => ('\\' :: p.1, p.2))
        else if e = '/' then (parseStringBody fuel rest').map (fun p => ('/' :: p.1, p.2))
        else if e = 'b' then (parseStringBody fuel rest').map (fun p => ('\x08' :: p.1, p.2))
        else if e = 'f' then (parseStringBody fuel rest').map (fun p => ('\x0c' :: p.1, p.2))
        else if e = 'n' then (parseStringBody fuel rest').map (fun p => ('\n' :: p.1, p.2))
        else if e = 'r' then (parseStringBody fuel rest').map (fun p => ('\r' :: p.1, p.2))
        else if e = 't' then (parseStringBody fuel rest').map (fun p => ('\t' :: p.1, p.2))
        else if e = 'u' then
          match rest' with
          | h1 :: h2 :: h3 :: h4 :: rest'' =>
            match hexVal h1, hexVal h2, hexVal h3, hexVal h4 with
            | some a, some b, some c2, some d =>
              (parseStringBody fuel rest'').map
                (fun p => (Char.ofNat (((a * 16 + b) * 16 + c2) * 16 + d) :: p.1, p.2))
            | _, _, _, _ => none
          | _ => none
        else none
    else if c.toNat < 32 then none
    else (parseStringBody fuel rest).map (fun p => (c :: p.1, p.2))

mutual

/-- Parse one JSON value (with whitespace skipped in front). -/
def parseValue : Nat → List Char → Option (Json × List Char)
  | 0, _ => none
  | fuel + 1, s =>
    match skipWs s with
    | [] => none
    | c :: rest =>
      if c = '"' then
        (parseStringBody (rest.length + 1) rest).map
          (fun p => (Json.str (String.mk p.1), p.2))
      else if c = '\x7b' then
        match skipWs rest with
        | '\x7d' :: r => some (Json.obj [], r)
        | r => (parseMembers fuel r).map (fun p => (Json.obj p.1, p.2))
      else if c = '[' then
        match skipWs rest with
        | ']' :: r => some (Json.arr [], r)
        | r => (parseElements fuel r).map (fun p => (Json.arr p.1, p.2))
      else if c = 't' then
        match rest with
        | 'r' :: 'u' :: 'e' :: r => some (Json.bool true, r)
        | _ => none
      else if c = 'f' then
        match rest with
        | 'a' :: 'l' :: 's' :: 'e' :: r => some (Json.bool false, r)
        | _ => none
      else if c = 'n' then
        match rest with
        | 'u' :: 'l' :: 'l' :: r => some (Json.null, r)
        | _ => none
      else if c = '-' || c.isDigit then
        (parseNumberLex (c :: rest)).map (fun p => (Json.num (String.mk p.1), p.2))
      else none

/-- Parse the members of a JSON object after the opening brace (at least one). -/
def parseMembers : Nat → List Char → Option (List (String × Json) × List Char)
  | 0, _ => none
  | fuel + 1, s =>
    match skipWs s with
    | '"' :: rest =>
      match parseStringBody (rest.length + 1) rest with
      | none => none
      | some (key, r₁) =>
        match skipWs r₁ with
        | ':' :: r₂ =>
          match parseValue fuel r₂ with
          | none => none
          | some (v, r₃) =>
            match skipWs r₃ with
            | ',' :: r₄ =>
              (parseMembers fuel r₄).map (fun p => ((String.mk key, v) :: p.1, p.2))
            | '\x7d' :: r₄ => some ([(String.mk key, v)], r₄)
            | _ => none
        | _ => none
    | _ => none

/-- Parse the elements of a JSON array after the opening bracket (at least one). -/
def parseElements : Nat → List Char → Option (List Json × List Char)
  | 0, _ => none
  | fuel + 1, s =>
    match parseValue fuel s with
    | none => none
    | some (v, r₁) =>
      match skipWs r₁ with
      | ',' :: r₂ => (parseElements fuel r₂).map (fun p => (v :: p.1, p.2))
      | ']' :: r₂ => some ([v], r₂)
      | _ => none

end

/-- Embedding of `json.loads`: parse a complete JSON document, rejecting trailing data. -/
def jsonLoads (s : List Char) : Option Json :=
  match parseValue (2 * s.length + 2) s with
  | some (v, rest) => if (skipWs rest).isEmpty then some v else none
  | none => none

/-! ## Reply extraction of `Core._run_service_command` (core.py)

The candidate is the slice of stdout from the first opening brace through
the last closing brace; its newlines are re-escaped and it is fed to
`json.loads`; any failure yields the empty dict. -/

/-- Embedding of `jsonstr.replace("\n", "\\n")`: re-escape the newlines the remote
execution layer unescaped. -/
def replaceNl : List Char → List Char
  | [] => []
  | c :: rest => if c = '\n' then '\\' :: 'n' :: replaceNl rest else c :: replaceNl rest

/-- The brace-delimited candidate JSON substring of command stdout, after
newline re-escaping (the `jsonstr` value of `_run_service_command`). -/
def extractJsonStr (stdout : List Char) : List Char :=
  replaceNl (pySlice stdout (pyFindChar '\x7b' stdout) (pyRfindChar '\x7d' stdout + 1))

/-- The dictionary `_run_service_command` builds from command stdout: the
parsed candidate substring, or the empty dict when parsing fails. -/
def run_service_command_reply (stdout : List Char) : Json :=
  match jsonLoads (extractJsonStr stdout) with
  | some v => v
  | none => Json.obj []

/-- Modelled from the spec: "the parsed JSON object extracted from the
substring between the first opening and the last closing brace of command stdout, after
undoing shell-introduced line-break escaping", collapsing to the empty
object when no valid JSON is found.  Written from the spec's words, for
comparison with `run_service_command_reply` (from the source). -/
def spec_service_reply (stdout : List Char) : Json :=
  let firstBrace := pyFindChar '\x7b' stdout
  let lastBrace := pyRfindChar '\x7d' stdout
  let candidate := pySlice stdout firstBrace (lastBrace + 1)
  match jsonLoads (replaceNl candidate) with
  | some v => v
  | none => Json.obj []

theorem pySlice_eq_nil_of_le (s : List Char) (a b : Int)
    (h : pyNorm s.length b ≤ pyNorm s.length a) : pySlice s a b = [] := by
  unfold pySlice
  have h0 : (pyNorm (s.length : Int) b - pyNorm (s.length : Int) a).toNat = 0 := by omega
  rw [h0, List.take_zero]

theorem drop_length_sub_one (s : List Char) (c : Char)
    (h : s.get? (s.length - 1) = some c) (hne : s ≠ []) :
    s.drop (s.length - 1) = [c] := by
  induction s with
  | nil => exact absurd rfl hne
  | cons x xs ih =>
    cases xs with
    | nil =>
      simp only [List.get?] at h
      simp only [List.length_cons, List.length_nil]
      injection h with h
      simp [h]
    | cons y ys =>
      have hL : (x :: y :: ys).length - 1 = ys.length + 1 := by simp
      rw [hL] at h ⊢
      rw [List.drop_succ_cons]
      rw [List.get?_cons_succ] at h
      have hL2 : ys.length = (y :: ys).length - 1 := by simp
      rw [hL2] at h ⊢
      exact ih h (by simp)

/-- When stdout holds no opening brace before a closing brace (so no
balanced-brace candidate),
the extracted slice is empty or a single closing brace. -/
theorem extract_slice_degenerate (s : List Char)
    (hb : pyFindChar '\x7b' s = -1 ∨ pyRfindChar '\x7d' s < pyFindChar '\x7b' s) :
    pySlice s (pyFindChar '\x7b' s) (pyRfindChar '\x7d' s + 1) = []
      ∨ pySlice s (pyFindChar '\x7b' s) (pyRfindChar '\x7d' s + 1) = ['\x7d'] := by
  have hjlt := pyRfindChar_lt_length '\x7d' s
  have hjge := neg_one_le_pyRfindChar '\x7d' s
  have hilt := pyFindChar_lt_length '\x7b' s
  have hige := neg_one_le_pyFindChar '\x7b' s
  rcases hb with h1 | h2
  · rw [h1]
    by_cases hn : s.length = 0
    · left
      have hs : s = [] := List.length_eq_zero.mp hn
      subst hs
      rfl
    · have hn1 : 1 ≤ s.length := Nat.one_le_iff_ne_zero.mpr hn
      by_cases hjtop : pyRfindChar '\x7d' s = (s.length : Int) - 1
      · right
        have hj0 : 0 ≤ pyRfindChar '\x7d' s := by omega
        have hget := pyRfindChar_get '\x7d' s hj0
        rw [hjtop] at hget
        have htn : ((s.length : Int) - 1).toNat = s.length - 1 := by omega
        rw [htn] at hget
        have hdrop := drop_length_sub_one s '\x7d' hget (by
          intro hs; rw [hs] at hn1; simp at hn1)
        unfold pySlice
        have hsta : (pyNorm (s.length : Int) (-1)).toNat = s.length - 1 := by
          unfold pyNorm; split_ifs <;> omega
        have hstb : (pyNorm (s.length : Int) (pyRfindChar '\x7d' s + 1)
            - pyNorm (s.length : Int) (-1)).toNat = 1 := by
          unfold pyNorm; split_ifs <;> omega
        rw [hsta, hstb, hdrop]
        rfl
      · left
        apply pySlice_eq_nil_of_le
        unfold pyNorm; split_ifs <;> omega
  · left
    apply pySlice_eq_nil_of_le
    unfold pyNorm; split_ifs <;> omega

/-- C4.  Reply parsing of `_run_service_command`: the returned dictionary is
the JSON parse of the substring from the first `\x7b` to the last `\x7d` of
stdout with newlines re-escaped (it coincides with the procedure worded in
the spec); on the spec's example stdout it yields the expected object; and
any stdout with no `\x7b` before a `\x7d` (hence no balanced-brace JSON
substring) yields the empty dictionary rather than an exception. -/
theorem c4_service_reply_parsing :
    (∀ stdout : List Char, run_service_command_reply stdout = spec_service_reply stdout)
  ∧ run_service_command_reply
      ("garbage\x7b\"success\": true, \"msg\": \"ok\"\x7dtrailing".toList)
      = Json.obj [("success", Json.bool true), ("msg", Json.str "ok")]
  ∧ (∀ stdout : List Char,
      pyFindChar '\x7b' stdout = -1 ∨ pyRfindChar '\x7d' stdout < pyFindChar '\x7b' stdout →
      run_service_command_reply stdout = Json.obj []) := by
  refine ⟨fun s => rfl, by rfl, fun s hb => ?_⟩
  rcases extract_slice_degenerate s hb with h | h <;>
    · unfold run_service_command_reply extractJsonStr
      rw [h]
      rfl

/-- Witness for C4 at a concrete stdout with no brace pair. -/
theorem c4_service_reply_parsing_witness :
    run_service_command_reply ("command produced no json".toList) = Json.obj [] :=
  c4_service_reply_parsing.2.2 ("command produced no json".toList) (Or.inl (by decide))

/-! ## Checkpoint Store (`core.py`: `get_bootstrap_status`,
`_download_bootstrap_status`, `_update_bootstrap`)

The JSON file layer is modelled at the parsed level: the remote
`bootstrap_status.json` is `Option Doc` (absent or a document) and the local
cache distinguishes `absent`, an empty file (the download workaround noted
in the source: a not-found download leaves a zero-size local file) and a
stored document.  A download attempt either works (`Transport.ok`) or raises
a non-`FileNotFoundError` exception with a message (`Transport.failed`). -/

/-- State of the local cached copy of `bootstrap_status.json`. -/
inductive LocalBsf where
  | absent
  | emptyFile
  | contents (d : Doc)

/-- Local + remote state of the bootstrap status document. -/
structure CpState where
  remote : Option Doc
  localBsf : LocalBsf

/-- Outcome of one download attempt. -/
inductive Transport where
  | ok
  | failed (msg : String)

/-- Embedding of `_download_bootstrap_status`: returns `(success, message)` and updates
the local cache.  `FileNotFoundError` is swallowed (`True, "File not
found"`, leaving the zero-size local file the transfer created); any other
exception yields `(False, msg)`. -/
def download_bootstrap_status (st : CpState) (tr : Transport) : CpState × (Bool × String) :=
  match tr with
  | Transport.failed m => (st, (false, "Bootstrap download has failed. Fail: " ++ m))
  | Transport.ok =>
    match st.remote with
    | none => ({ st with localBsf := LocalBsf.emptyFile }, (true, "File not found"))
    | some d => ({ st with localBsf := LocalBsf.contents d }, (true, ""))

/-- Result of `get_bootstrap_status`: either a parsed document, or the
Python *set* literal (of "msg" and the download message) the source builds on a failed
download (a set, not a dict — modelled as its list of elements). -/
inductive BssResult where
  | doc (d : Doc)
  | failSet (elems : List String)

/-- Embedding of `get_bootstrap_status` with the default `force=True` (the only way the
orchestrator calls it): always downloads, then reads the local file; a
missing or empty or empty-object file is the empty status. -/
def get_bootstrap_status (st : CpState) (tr : Transport) : BssResult × CpState :=
  match download_bootstrap_status st tr with
  | (st₁, (success, msg)) =>
    if success = false then (BssResult.failSet ["msg", msg], st₁)
    else
      match st₁.localBsf with
      | LocalBsf.absent => (BssResult.doc [], st₁)
      | LocalBsf.emptyFile => (BssResult.doc [], st₁)
      | LocalBsf.contents d =>
        if d.isEmpty then (BssResult.doc [], st₁) else (BssResult.doc d, st₁)

/-- Embedding of `_update_bootstrap(key, value)`: read the full document via
`get_bootstrap_status()`, assign the one key, write the whole document to
the local file, upload it to the meas node; `True` on upload success,
`False` on upload failure (local write already took effect).  `none` models
the uncaught `TypeError` Python would raise when the read produced the
failure *set* (item assignment on a set). -/
def update_bootstrap (st : CpState) (trGet : Transport) (uploadOk : Bool)
    (k : String) (v : Json) : Option (CpState × Bool) :=
  match get_bootstrap_status st trGet with
  | (BssResult.failSet _, _) => none
  | (BssResult.doc d, st₁) =>
    let d' := pyDictSet d k v
    let st₂ := { st₁ with localBsf := LocalBsf.contents d' }
    if uploadOk then some ({ st₂ with remote := some d' }, true)
    else some (st₂, false)

/-- The document effectively stored on the control node (empty when the
file is absent). -/
def remoteDoc (st : CpState) : Doc :=
  st.remote.getD []

theorem get_bootstrap_status_ok (st : CpState) :
    (get_bootstrap_status st Transport.ok).1 = BssResult.doc (remoteDoc st) := by
  rcases st with ⟨remote, lb⟩
  cases remote with
  | none => simp [get_bootstrap_status, download_bootstrap_status, remoteDoc]
  | some d =>
    cases d with
    | nil => simp [get_bootstrap_status, download_bootstrap_status, remoteDoc]
    | cons hd tl => simp [get_bootstrap_status, download_bootstrap_status, remoteDoc]

/-- C5.  Checkpoint round-trip: `_update_bootstrap(k, v)` reads the current
full document, mutates only key `k` and persists the whole document; a
subsequent `get_bootstrap_status()` returns a document that maps `k` to `v`
and agrees with the previous document on every other key (merge semantics,
no loss). -/
theorem c5_checkpoint_round_trip (st : CpState) (k : String) (v : Json) :
    ∃ st' : CpState,
      update_bootstrap st Transport.ok true k v = some (st', true)
      ∧ (get_bootstrap_status st' Transport.ok).1
          = BssResult.doc (pyDictSet (remoteDoc st) k v)
      ∧ lookupDoc (pyDictSet (remoteDoc st) k v) k = some v
      ∧ ∀ k' : String, k' ≠ k →
          lookupDoc (pyDictSet (remoteDoc st) k v) k' = lookupDoc (remoteDoc st) k' := by
  refine ⟨⟨some (pyDictSet (remoteDoc st) k v),
          LocalBsf.contents (pyDictSet (remoteDoc st) k v)⟩, ?_, ?_, ?_, ?_⟩
  · rcases st with ⟨remote, lb⟩
    cases remote with
    | none => simp [update_bootstrap, get_bootstrap_status, download_bootstrap_status, remoteDoc]
    | some d =>
      cases d with
      | nil => simp [update_bootstrap, get_bootstrap_status, download_bootstrap_status, remoteDoc]
      | cons hd tl =>
        simp [update_bootstrap, get_bootstrap_status, download_bootstrap_status, remoteDoc]
  · have hne := pyDictSet_ne_nil (remoteDoc st) k v
    simp [get_bootstrap_status, download_bootstrap_status, List.isEmpty_iff, hne]
  · exact lookupDoc_pyDictSet_self _ _ _
  · exact fun k' hk' => lookupDoc_pyDictSet_ne _ _ _ _ hk'

/-- Witness for C5 at a concrete state with one previously set key. -/
theorem c5_checkpoint_round_trip_witness :
    ∃ st' : CpState,
      update_bootstrap ⟨some [("mfuser_keys", Json.str "ok")], LocalBsf.absent⟩
          Transport.ok true "repo_cloned" (Json.str "ok") = some (st', true)
      ∧ (get_bootstrap_status st' Transport.ok).1
          = BssResult.doc (pyDictSet
              (remoteDoc ⟨some [("mfuser_keys", Json.str "ok")], LocalBsf.absent⟩)
              "repo_cloned" (Json.str "ok"))
      ∧ lookupDoc (pyDictSet
            (remoteDoc ⟨some [("mfuser_keys", Json.str "ok")], LocalBsf.absent⟩)
            "repo_cloned" (Json.str "ok")) "repo_cloned" = some (Json.str "ok")
      ∧ ∀ k' : String, k' ≠ "repo_cloned" →
          lookupDoc (pyDictSet
              (remoteDoc ⟨some [("mfuser_keys", Json.str "ok")], LocalBsf.absent⟩)
              "repo_cloned" (Json.str "ok")) k'
            = lookupDoc (remoteDoc ⟨some [("mfuser_keys", Json.str "ok")], LocalBsf.absent⟩) k' :=
  c5_checkpoint_round_trip ⟨some [("mfuser_keys", Json.str "ok")], LocalBsf.absent⟩
    "repo_cloned" (Json.str "ok")

/-- C6.  Checkpoint get failure semantics: a missing remote status file
resolves to the empty status (no exception), while any other transport
failure yields a failure value distinct from the empty status; in the
embedding `get_bootstrap_status` is a total function, mirroring that the
source catches every exception of the download. -/
theorem c6_get_failure_semantics :
    (∀ st : CpState, st.remote = none →
        (get_bootstrap_status st Transport.ok).1 = BssResult.doc [])
  ∧ (∀ (st : CpState) (m : String),
        (get_bootstrap_status st (Transport.failed m)).1
          = BssResult.failSet ["msg", "Bootstrap download has failed. Fail: " ++ m]
      ∧ ∀ d : Doc,
          BssResult.failSet ["msg", "Bootstrap download has failed. Fail: " ++ m]
            ≠ BssResult.doc d) := by
  refine ⟨?_, ?_⟩
  · intro st h
    rcases st with ⟨remote, lb⟩
    cases h
    simp [get_bootstrap_status, download_bootstrap_status]
  · intro st m
    refine ⟨?_, ?_⟩
    · simp [get_bootstrap_status, download_bootstrap_status]
    · intro d hcontra
      exact BssResult.noConfusion hcontra

/-- Witness for C6 at a concrete state (no remote file / failed transport). -/
theorem c6_get_failure_semantics_witness :
    (get_bootstrap_status ⟨none, LocalBsf.absent⟩ Transport.ok).1 = BssResult.doc []
  ∧ (get_bootstrap_status ⟨none, LocalBsf.absent⟩ (Transport.failed "timeout")).1
      = BssResult.failSet ["msg", "Bootstrap download has failed. Fail: " ++ "timeout"] :=
  ⟨c6_get_failure_semantics.1 ⟨none, LocalBsf.absent⟩ rfl,
   (c6_get_failure_semantics.2 ⟨none, LocalBsf.absent⟩ "timeout").1⟩

/-! ## Service Command Dispatcher (`core.py`)

Remote interactions are recorded as an effect trace.  The environment
supplies what the remote side would answer: the stdout of `ls` over the
services directory, the stdout of running a service command, the content of
a downloadable file (`none` = download raises), the result of the remote
directory-existence test, plus the random temp-name suffix and the local
slice directory (both only feed path strings). -/

/-- Embedding of `self.services_directory` (`os.path.join("/", "home", "mfuser", "services")`). -/
def services_directory : String := "/home/mfuser/services"

/-- One remote interaction with the meas node. -/
inductive REff where
  | exec (cmd : String)
  | upload (dst : String)
  | download (remote : String)
  | uploadDir (dst : String)
deriving DecidableEq

/-- Environment of a dispatcher call. -/
structure SvcEnv where
  lsStdout : String
  runStdout : String → String → String
  randName : String
  fileText : String → Option String
  remoteDirExists : Bool
  localSliceDir : String

/-- Helper of `pySplitChar`: split on `sep`, with the reversed current
segment accumulated. -/
def pySplitCharAux (sep : Char) : List Char → List Char → List String
  | [], acc => [String.mk acc.reverse]
  | c :: rest, acc =>
    if c = sep then String.mk acc.reverse :: pySplitCharAux sep rest []
    else pySplitCharAux sep rest (c :: acc)

/-- Python's `str.split(sep)` for a one-character separator. -/
def pySplitChar (sep : Char) (s : String) : List String :=
  pySplitCharAux sep s.toList []

/-- Embedding of `os.path.basename`. -/
def pyBasename (p : String) : String :=
  ((pySplitChar '/' p).getLast?).getD ""

/-- Embedding of `_get_service_list`: `ls` the services directory, split stdout on
newlines, drop `"common"` and empty items. -/
def get_service_list (env : SvcEnv) : List String × List REff :=
  ((pySplitChar '\n' env.lsStdout).filter (fun i => i != "common" && i != ""),
   [REff.exec ("ls " ++ services_directory)])

/-- Embedding of `_upload_service_data`: upload the serialized payload to a random temp
file and move it into the service's `data/data.json` slot (the payload
value itself never reaches the effect trace; it goes into a local file). -/
def upload_service_data_effects (env : SvcEnv) (service : String) (_data : Json) : List REff :=
  [REff.upload ("/tmp/mf_service_data_" ++ env.randName),
   REff.exec ("sudo mv /tmp/mf_service_data_" ++ env.randName ++ " "
     ++ services_directory ++ "/" ++ service ++ "/data/data.json;  sudo chown mfuser:mfuser "
     ++ services_directory ++ "/" ++ service ++ "/data/data.json")]

/-- Embedding of `_upload_service_files` effect trace: per file, upload to a random temp
name then move into the service's `files/` slot with ownership reset. -/
def upload_service_files_effects (env : SvcEnv) (service : String) (files : List String) :
    List REff :=
  (files.map (fun f =>
    [REff.upload ("/tmp/mf_file_" ++ env.randName),
     REff.exec ("sudo mv /tmp/mf_file_" ++ env.randName ++ " "
       ++ services_directory ++ "/" ++ service ++ "/files/" ++ pyBasename f
       ++ ";  sudo chown mfuser:mfuser "
       ++ services_directory ++ "/" ++ service ++ "/files/" ++ pyBasename f ++ ";")])).flatten

/-- Embedding of `_upload_service_files` result: success message naming the loop
variable's final value; `none` models the uncaught `NameError` the source
hits when `files` is empty (the f-string uses the loop variable after the
loop). -/
def upload_service_files_result (files : List String) : Option Json :=
  match files.getLast? with
  | none => none
  | some f => some (Json.obj
      [("success", Json.bool true),
       ("message", Json.str ("Service file " ++ pyBasename f ++ " uploaded successfully."))])

/-- The fixed-form remote command of `_run_service_command`. -/
def service_command_string (service command : String) : String :=
  "sudo -u mfuser python3 " ++ services_directory ++ "/" ++ service ++ "/" ++ command ++ ".py"

/-- Embedding of `_run_service_command`: execute the service's command script and parse
its stdout (see `run_service_command_reply`). -/
def run_service_command_full (env : SvcEnv) (service command : String) : Json × List REff :=
  (run_service_command_reply ((env.runStdout service command).toList),
   [REff.exec (service_command_string service command)])

/-- Embedding of `_run_on_meas_node`: upload the data payload (an explicit
empty object when no
data is given, clearing stale state), upload any files, then run the
command. -/
def run_on_meas_node (env : SvcEnv) (service command : String)
    (data : Option Json) (files : List String) : Json × List REff :=
  let dataEff := upload_service_data_effects env service
    (match data with | some d => d | none => Json.obj [])
  let fileEff := if files.isEmpty then [] else upload_service_files_effects env service files
  ((run_service_command_full env service command).1,
   dataEff ++ fileEff ++ (run_service_command_full env service command).2)

namespace Core

/-- Embedding of `Core.create`: no service-name validation (creation may target a
not-yet-listed service). -/
def create (env : SvcEnv) (service : String) (data : Option Json) (files : List String) :
    Json × List REff :=
  run_on_meas_node env service "create" data files

/-- Embedding of `Core.update`: runs the update command directly — the source performs
no service-name validation here. -/
def update (env : SvcEnv) (service : String) (data : Option Json) (files : List String) :
    Json × List REff :=
  run_on_meas_node env service "update" data files

/-- Embedding of `Core.info`: rejects a service name not in the directory listing, then
runs the info command. -/
def info (env : SvcEnv) (service : String) (data : Option Json) : Json × List REff :=
  if service ∈ (get_service_list env).1 then
    ((run_on_meas_node env service "info" data []).1,
     (get_service_list env).2 ++ (run_on_meas_node env service "info" data []).2)
  else (Json.obj [("success", Json.bool false)], (get_service_list env).2)

/-- The accumulation loop shared by `start`/`stop`/`remove`: one
result-dict entry per service, keyed by "service" and "results" (modelled as a pair). -/
def svc_batch (env : SvcEnv) (command : String) : List String → List (String × Json) × List REff
  | [] => ([], [])
  | s :: rest =>
    ((s, (run_on_meas_node env s command none []).1) :: (svc_batch env command rest).1,
     (run_on_meas_node env s command none []).2 ++ (svc_batch env command rest).2)

/-- Embedding of `Core.start`: returns the accumulated per-service result list. -/
def start (env : SvcEnv) (services : List String) :
    Option (List (String × Json)) × List REff :=
  (some (svc_batch env "start" services).1, (svc_batch env "start" services).2)

/-- Embedding of `Core.stop`: returns the accumulated per-service result list. -/
def stop (env : SvcEnv) (services : List String) :
    Option (List (String × Json)) × List REff :=
  (some (svc_batch env "stop" services).1, (svc_batch env "stop" services).2)

/-- Embedding of `Core.remove`: builds the same accumulated list as `start`/`stop` but
falls off the end of the function without returning it (Python `None`). -/
def remove (env : SvcEnv) (services : List String) :
    Option (List (String × Json)) × List REff :=
  (none, (svc_batch env "remove" services).2)

/-- Result of `download_log_file`: the rejection dict, or the
`(local_path, text)` tuple (empty strings when the download failed). -/
inductive LogDownload where
  | rejected
  | fileText (path text : String)

/-- Embedding of `Core.download_log_file`: validates the service name, then downloads
`<service>/log/<method>.log`. -/
def download_log_file (env : SvcEnv) (service method : String) : LogDownload × List REff :=
  if service ∈ (get_service_list env).1 then
    match env.fileText ("/home/mfuser/services/" ++ service ++ "/log/" ++ method ++ ".log") with
    | some t =>
      (LogDownload.fileText (env.localSliceDir ++ "/" ++ method ++ ".log") t,
       (get_service_list env).2
         ++ [REff.download ("/home/mfuser/services/" ++ service ++ "/log/" ++ method ++ ".log")])
    | none =>
      (LogDownload.fileText "" "",
       (get_service_list env).2
         ++ [REff.download ("/home/mfuser/services/" ++ service ++ "/log/" ++ method ++ ".log")])
  else (LogDownload.rejected, (get_service_list env).2)

/-- Embedding of `Core._download_service_file`: download from the service directory (an
exception during download becomes a failure dict; message abridged). -/
def download_service_file_internal (env : SvcEnv) (service filename localPath : String) :
    Json × List REff :=
  let localp := if localPath = "" then env.localSliceDir ++ "/" ++ service ++ "/" ++ filename
    else localPath
  match env.fileText (services_directory ++ "/" ++ service ++ "/" ++ filename) with
  | some _ =>
    (Json.obj [("success", Json.bool true), ("filename", Json.str localp),
       ("message", Json.str ("uploaded " ++ filename ++ " successfully."))],
     [REff.download (services_directory ++ "/" ++ service ++ "/" ++ filename)])
  | none =>
    (Json.obj [("success", Json.bool false),
       ("message", Json.str "Download service file Fail")],
     [REff.download (services_directory ++ "/" ++ service ++ "/" ++ filename)])

/-- Does `hay` start with `needle`? -/
def startsWithList (needle hay : List Char) : Bool :=
  match needle, hay with
  | [], _ => true
  | _ :: _, [] => false
  | n :: ns, h :: hs => n = h && startsWithList ns hs

/-- Python's `needle in hay` substring test over character lists. -/
def containsSubList (needle hay : List Char) : Bool :=
  match hay with
  | [] => needle.isEmpty
  | _ :: hs => startsWithList needle hay || containsSubList needle hs

/-- Does the filename contain the `".."` path-traversal marker? -/
def hasDotDot (filename : String) : Bool :=
  containsSubList "..".toList filename.toList

/-- Embedding of `Core.download_service_file`: validates the service name (via the
remote directory listing), rejects a `".."` filename, then downloads. -/
def download_service_file (env : SvcEnv) (service filename localPath : String) :
    Json × List REff :=
  if service ∈ (get_service_list env).1 then
    if hasDotDot filename then
      (Json.obj [("success", Json.bool false)], (get_service_list env).2)
    else
      ((download_service_file_internal env service filename localPath).1,
       (get_service_list env).2
         ++ (download_service_file_internal env service filename localPath).2)
  else (Json.obj [("success", Json.bool false)], (get_service_list env).2)

/-- Embedding of `Core.upload_service_files`: validates the service name, then uploads. -/
def upload_service_files (env : SvcEnv) (service : String) (files : List String) :
    Option Json × List REff :=
  if service ∈ (get_service_list env).1 then
    (upload_service_files_result files,
     (get_service_list env).2 ++ upload_service_files_effects env service files)
  else
    (some (Json.obj [("success", Json.bool false),
       ("message", Json.str "You must specify a valid service")]),
     (get_service_list env).2)

/-- Embedding of `Core._upload_service_directory`: local-path sanity check (a normalized
path with no directory part is rejected before any remote call), remote
existence test with the `force` overwrite guard, then staged upload+move. -/
def upload_service_directory_internal (env : SvcEnv) (service localDirPath : String)
    (force : Bool) : Json × List REff :=
  if ('/' ∈ localDirPath.toList) = false then
    (Json.obj [("success", Json.bool false),
       ("message", Json.str "The local directory does not exist.")], [])
  else
    if env.remoteDirExists then
      if force then
        (Json.obj [("success", Json.bool true),
           ("message", Json.str ("Service Directory " ++ pyBasename localDirPath
             ++ " uploaded successfully."))],
         [REff.exec ("if test -d " ++ services_directory ++ "/" ++ service ++ "/files/"
            ++ pyBasename localDirPath
            ++ "; then echo \x27Directory exists\x27; else echo \x27does not exist\x27; fi"),
          REff.exec ("sudo rm -rf " ++ services_directory ++ "/" ++ service ++ "/files/"
            ++ pyBasename localDirPath),
          REff.uploadDir ("/tmp/mf_dir_" ++ env.randName),
          REff.exec ("sudo mv -f /tmp/mf_dir_" ++ env.randName ++ "/"
            ++ pyBasename localDirPath ++ " " ++ services_directory ++ "/" ++ service
            ++ "/files;  sudo chown mfuser:mfuser " ++ services_directory ++ "/" ++ service
            ++ "/files; sudo rm -rf /tmp/mf_dir_" ++ env.randName)])
      else
        (Json.obj [("success", Json.bool false),
           ("message", Json.str
             "The selected directory already exists. Run command with force=True to overwrite it.")],
         [REff.exec ("if test -d " ++ services_directory ++ "/" ++ service ++ "/files/"
            ++ pyBasename localDirPath
            ++ "; then echo \x27Directory exists\x27; else echo \x27does not exist\x27; fi")])
    else
      (Json.obj [("success", Json.bool true),
         ("message", Json.str ("Service Directory " ++ pyBasename localDirPath
           ++ " uploaded successfully."))],
       [REff.exec ("if test -d " ++ services_directory ++ "/" ++ service ++ "/files/"
          ++ pyBasename localDirPath
          ++ "; then echo \x27Directory exists\x27; else echo \x27does not exist\x27; fi"),
        REff.uploadDir ("/tmp/mf_dir_" ++ env.randName),
        REff.exec ("sudo mv -f /tmp/mf_dir_" ++ env.randName ++ "/"
          ++ pyBasename localDirPath ++ " " ++ services_directory ++ "/" ++ service
          ++ "/files;  sudo chown mfuser:mfuser " ++ services_directory ++ "/" ++ service
          ++ "/files; sudo rm -rf /tmp/mf_dir_" ++ env.randName)])

/-- Embedding of `Core.upload_service_directory`: validates the service name, then
delegates to the internal upload. -/
def upload_service_directory (env : SvcEnv) (service localDirPath : String) (force : Bool) :
    Json × List REff :=
  if service ∈ (get_service_list env).1 then
    ((upload_service_directory_internal env service localDirPath force).1,
     (get_service_list env).2
       ++ (upload_service_directory_internal env service localDirPath force).2)
  else
    (Json.obj [("success", Json.bool false),
       ("message", Json.str "You must specify a valid service")],
     (get_service_list env).2)

end Core

/-- C7 counterexample.  `download_service_file("svc1", "../../etc/passwd")`
is rejected — but only after the service-name validation has already run a
remote `ls` command, so the rejection does *not* happen before all remote
I/O as claimed: the effect trace of the call contains a remote command
execution. -/
theorem c7_traversal_counterexample :
    (Core.download_service_file
        ⟨"svc1\ncommon\n", fun _ _ => "", "ABCDEFGHIJ", fun _ => none, false, "/tmp/mflib/s"⟩
        "svc1" "../../etc/passwd" "").1 = Json.obj [("success", Json.bool false)]
  ∧ (Core.download_service_file
        ⟨"svc1\ncommon\n", fun _ _ => "", "ABCDEFGHIJ", fun _ => none, false, "/tmp/mflib/s"⟩
        "svc1" "../../etc/passwd" "").2 = [REff.exec ("ls /home/mfuser/services")]
  ∧ REff.exec ("ls /home/mfuser/services")
      ∈ (Core.download_service_file
        ⟨"svc1\ncommon\n", fun _ _ => "", "ABCDEFGHIJ", fun _ => none, false, "/tmp/mflib/s"⟩
        "svc1" "../../etc/passwd" "").2 :=
  ⟨rfl, rfl, by decide⟩

/-- C7 (amended).  A path-traversal filename is always rejected with an
explicit failure result before any file download and before the service
command is run; the only remote operation that can precede the rejection is
the directory-listing `ls` of the service-name validation. -/
theorem c7_traversal_rejected (env : SvcEnv) (service filename localPath : String)
    (h : Core.hasDotDot filename = true) :
    Core.download_service_file env service filename localPath
      = (Json.obj [("success", Json.bool false)], [REff.exec ("ls " ++ services_directory)])
  ∧ ∀ r : String,
      REff.download r ∉ (Core.download_service_file env service filename localPath).2 := by
  have key : Core.download_service_file env service filename localPath
      = (Json.obj [("success", Json.bool false)],
         [REff.exec ("ls " ++ services_directory)]) := by
    unfold Core.download_service_file
    split_ifs <;> rfl
  refine ⟨key, fun r => ?_⟩
  rw [key]
  simp

/-- Witness for C7 (amended) at a concrete environment and filename. -/
theorem c7_traversal_rejected_witness :
    Core.download_service_file
        ⟨"svc1\n", fun _ _ => "", "ABCDEFGHIJ", fun _ => none, false, "/tmp/mflib/s"⟩
        "other" "../secret" ""
      = (Json.obj [("success", Json.bool false)], [REff.exec ("ls " ++ services_directory)])
  ∧ ∀ r : String,
      REff.download r ∉ (Core.download_service_file
        ⟨"svc1\n", fun _ _ => "", "ABCDEFGHIJ", fun _ => none, false, "/tmp/mflib/s"⟩
        "other" "../secret" "").2 :=
  c7_traversal_rejected
    ⟨"svc1\n", fun _ _ => "", "ABCDEFGHIJ", fun _ => none, false, "/tmp/mflib/s"⟩
    "other" "../secret" "" (by decide)

/-- C8 counterexample.  For a service name absent from the directory
listing, `Core.update` (and `Core.start`) still attempt the remote service
command instead of rejecting the call: the claim that every operation but
creation validates the name first is false for them. -/
theorem c8_validation_counterexample :
    "ghost" ∉ (get_service_list
        ⟨"svc1\ncommon\n", fun _ _ => "", "ABCDEFGHIJ", fun _ => none, false, "/tmp/mflib/s"⟩).1
  ∧ REff.exec (service_command_string "ghost" "update")
      ∈ (Core.update
        ⟨"svc1\ncommon\n", fun _ _ => "", "ABCDEFGHIJ", fun _ => none, false, "/tmp/mflib/s"⟩
        "ghost" none []).2
  ∧ REff.exec (service_command_string "ghost" "start")
      ∈ (Core.start
        ⟨"svc1\ncommon\n", fun _ _ => "", "ABCDEFGHIJ", fun _ => none, false, "/tmp/mflib/s"⟩
        ["ghost"]).2
  ∧ (Core.update
        ⟨"svc1\ncommon\n", fun _ _ => "", "ABCDEFGHIJ", fun _ => none, false, "/tmp/mflib/s"⟩
        "ghost" none []).1 = Json.obj [] :=
  ⟨by decide, by decide, by decide, rfl⟩

/-- C8 (amended).  Exactly `info` and the maintenance calls
(`download_log_file`, `download_service_file`, `upload_service_files`,
`upload_service_directory`) verify the service name against the directory
listing and reject an unknown name with a failure result before any
command or upload; `update`, `start`, `stop` and `remove` perform no such
validation and attempt the remote command regardless. -/
theorem c8_service_name_validation (env : SvcEnv) (service : String)
    (h : service ∉ (get_service_list env).1) :
    (∀ data : Option Json, Core.info env service data
        = (Json.obj [("success", Json.bool false)],
           [REff.exec ("ls " ++ services_directory)]))
  ∧ (∀ method : String, Core.download_log_file env service method
        = (Core.LogDownload.rejected, [REff.exec ("ls " ++ services_directory)]))
  ∧ (∀ filename localPath : String, Core.download_service_file env service filename localPath
        = (Json.obj [("success", Json.bool false)],
           [REff.exec ("ls " ++ services_directory)]))
  ∧ (∀ files : List String, Core.upload_service_files env service files
        = (some (Json.obj [("success", Json.bool false),
             ("message", Json.str "You must specify a valid service")]),
           [REff.exec ("ls " ++ services_directory)]))
  ∧ (∀ (p : String) (force : Bool), Core.upload_service_directory env service p force
        = (Json.obj [("success", Json.bool false),
             ("message", Json.str "You must specify a valid service")],
           [REff.exec ("ls " ++ services_directory)]))
  ∧ (∀ (data : Option Json) (files : List String),
        REff.exec (service_command_string service "update")
          ∈ (Core.update env service data files).2)
  ∧ REff.exec (service_command_string service "start") ∈ (Core.start env [service]).2
  ∧ REff.exec (service_command_string service "stop") ∈ (Core.stop env [service]).2
  ∧ REff.exec (service_command_string service "remove") ∈ (Core.remove env [service]).2 := by
  refine ⟨?_, ?_, ?_, ?_, ?_, ?_, ?_, ?_, ?_⟩
  · intro data
    unfold Core.info
    split_ifs <;> rfl
  · intro method
    unfold Core.download_log_file
    split_ifs <;> rfl
  · intro filename localPath
    unfold Core.download_service_file
    split_ifs <;> rfl
  · intro files
    unfold Core.upload_service_files
    split_ifs <;> rfl
  · intro p force
    unfold Core.upload_service_directory
    split_ifs <;> rfl
  · intro data files
    simp [Core.update, run_on_meas_node, run_service_command_full, List.mem_append]
  · simp [Core.start, Core.svc_batch, run_on_meas_node, run_service_command_full,
      List.mem_append]
  · simp [Core.stop, Core.svc_batch, run_on_meas_node, run_service_command_full,
      List.mem_append]
  · simp [Core.remove, Core.svc_batch, run_on_meas_node, run_service_command_full,
      List.mem_append]

/-- Witness for C8 (amended) at a concrete environment and service name. -/
theorem c8_service_name_validation_witness :
    (∀ data : Option Json, Core.info
        ⟨"svc1\n", fun _ _ => "", "ABCDEFGHIJ", fun _ => none, false, "/tmp/mflib/s"⟩
        "ghost" data
        = (Json.obj [("success", Json.bool false)],
           [REff.exec ("ls " ++ services_directory)]))
  ∧ (∀ method : String, Core.download_log_file
        ⟨"svc1\n", fun _ _ => "", "ABCDEFGHIJ", fun _ => none, false, "/tmp/mflib/s"⟩
        "ghost" method
        = (Core.LogDownload.rejected, [REff.exec ("ls " ++ services_directory)]))
  ∧ (∀ filename localPath : String, Core.download_service_file
        ⟨"svc1\n", fun _ _ => "", "ABCDEFGHIJ", fun _ => none, false, "/tmp/mflib/s"⟩
        "ghost" filename localPath
        = (Json.obj [("success", Json.bool false)],
           [REff.exec ("ls " ++ services_directory)]))
  ∧ (∀ files : List String, Core.upload_service_files
        ⟨"svc1\n", fun _ _ => "", "ABCDEFGHIJ", fun _ => none, false, "/tmp/mflib/s"⟩
        "ghost" files
        = (some (Json.obj [("success", Json.bool false),
             ("message", Json.str "You must specify a valid service")]),
           [REff.exec ("ls " ++ services_directory)]))
  ∧ (∀ (p : String) (force : Bool), Core.upload_service_directory
        ⟨"svc1\n", fun _ _ => "", "ABCDEFGHIJ", fun _ => none, false, "/tmp/mflib/s"⟩
        "ghost" p force
        = (Json.obj [("success", Json.bool false),
             ("message", Json.str "You must specify a valid service")],
           [REff.exec ("ls " ++ services_directory)]))
  ∧ (∀ (data : Option Json) (files : List String),
        REff.exec (service_command_string "ghost" "update")
          ∈ (Core.update
            ⟨"svc1\n", fun _ _ => "", "ABCDEFGHIJ", fun _ => none, false, "/tmp/mflib/s"⟩
            "ghost" data files).2)
  ∧ REff.exec (service_command_string "ghost" "start")
      ∈ (Core.start
        ⟨"svc1\n", fun _ _ => "", "ABCDEFGHIJ", fun _ => none, false, "/tmp/mflib/s"⟩
        ["ghost"]).2
  ∧ REff.exec (service_command_string "ghost" "stop")
      ∈ (Core.stop
        ⟨"svc1\n", fun _ _ => "", "ABCDEFGHIJ", fun _ => none, false, "/tmp/mflib/s"⟩
        ["ghost"]).2
  ∧ REff.exec (service_command_string "ghost" "remove")
      ∈ (Core.remove
        ⟨"svc1\n", fun _ _ => "", "ABCDEFGHIJ", fun _ => none, false, "/tmp/mflib/s"⟩
        ["ghost"]).2 :=
  c8_service_name_validation
    ⟨"svc1\n", fun _ _ => "", "ABCDEFGHIJ", fun _ => none, false, "/tmp/mflib/s"⟩
    "ghost" (by decide)

/-- C10.  `Core.remove` builds the same per-service result list as
`start`/`stop` (one entry per requested service, via the shared loop) but
always returns `None`, whereas `Core.start` and `Core.stop` return their
accumulated lists. -/
theorem c10_remove_returns_none (env : SvcEnv) (services : List String) :
    (Core.remove env services).1 = none
  ∧ (Core.start env services).1 = some (Core.svc_batch env "start" services).1
  ∧ (Core.stop env services).1 = some (Core.svc_batch env "stop" services).1
  ∧ (Core.svc_batch env "remove" services).1
      = services.map (fun s => (s, (run_on_meas_node env s "remove" none []).1)) := by
  refine ⟨rfl, rfl, rfl, ?_⟩
  induction services with
  | nil => rfl
  | cons s rest ih => simp [Core.svc_batch, ih]

/-! ## Bootstrap Orchestrator (`mflib.py`: `MFLib.init`)

`init` reads the bootstrap status once into `bss`, then walks the fixed
stage list, consulting `bss` for each gate and writing checkpoints through
`_update_bootstrap`.  The environment carries the per-run outcomes the
remote world determines: whether a meas node exists, the status document
the initial read produced, which nodes have IPv6-only management addresses,
whether the mfuser account installation succeeded as a whole, and the
(ignored) return value of `_clone_mf_repo`.  The trace records stage side
effects and checkpoint writes; reads (`get_bootstrap_status`,
`get_mfuser_private_key`) are recorded but are not remote side effects. -/

/-- One observable step of `MFLib.init`. -/
inductive Effect where
  | readBootstrapStatus
  | getPrivateKey
  | generateKeys
  | installAccounts
  | setDNS
  | cloneRepo (success : Bool)
  | makeHosts
  | setHostsFile
  | bootstrapScript
  | bootstrapAnsible
  | writeCheckpoint (k v : String)
deriving DecidableEq

/-- Reads are not remote side effects; stage actions and checkpoint
uploads are. -/
def Effect.isRemoteSideEffect : Effect → Bool
  | Effect.readBootstrapStatus => false
  | Effect.getPrivateKey => false
  | _ => true

/-- Environment of one `MFLib.init` run. -/
structure InitEnv where
  measNodeExists : Bool
  bss : Doc
  nodesIPv6 : List Bool
  mfusersInstallSuccess : Bool
  cloneSuccess : Bool

/-- Result of one `MFLib.init` run: the Python return value (`None`,
`True` or `False`), the bootstrap status document after the run's
checkpoint writes, and the effect trace. -/
structure InitOutcome where
  result : Option Bool
  finalDoc : Doc
  trace : List Effect

/-- Embedding of `set_DNS_all_nodes`: applies the NAT64 DNS workaround to every
IPv6-managed node and reports `"set"` if any node needed it, else
`"not needed"` (with a space — see `c1`). -/
def set_DNS_all_nodes (nodesIPv6 : List Bool) : String :=
  if nodesIPv6.any (fun b => b) then "set" else "not needed"

/-- One of the uniform later stages (5–8): gate on `bss[key] == "ok"`,
otherwise run the side effect and write `key = "ok"`. -/
def stageStep (bss : Doc) (key : String) (eff : Effect) (s : Doc × List Effect) :
    Doc × List Effect :=
  if hasVal bss key "ok" then s
  else (pyDictSet s.1 key (Json.str "ok"),
        s.2 ++ [eff, Effect.writeCheckpoint key "ok"])

/-- Stages 3–9 of `MFLib.init` (no early return is possible from here on):
NAT64 DNS, repo clone (whose success flag is received and discarded, as in
the source), measurement network, hosts files, bootstrap script, bootstrap
ansible, then the unconditional `status = "ready"` write and `return True`. -/
def initStages3on (env : InitEnv) (bss d : Doc) (t : List Effect) : InitOutcome :=
  let s3 : Doc × List Effect :=
    if hasVal bss "ipv6_4_nat" "set" || hasVal bss "ipv6_4_nat" "not_needed" then (d, t)
    else (pyDictSet d "ipv6_4_nat" (Json.str (set_DNS_all_nodes env.nodesIPv6)),
          t ++ [Effect.setDNS,
                Effect.writeCheckpoint "ipv6_4_nat" (set_DNS_all_nodes env.nodesIPv6)])
  let s4 : Doc × List Effect :=
    if hasVal bss "repo_cloned" "ok" then s3
    else (pyDictSet s3.1 "repo_cloned" (Json.str "ok"),
          s3.2 ++ [Effect.cloneRepo env.cloneSuccess, Effect.writeCheckpoint "repo_cloned" "ok"])
  let s5 := stageStep bss "meas_network" Effect.makeHosts s4
  let s6 := stageStep bss "hosts_set" Effect.setHostsFile s5
  let s7 := stageStep bss "bootstrap_script" Effect.bootstrapScript s6
  let s8 := stageStep bss "bootstrap_ansible" Effect.bootstrapAnsible s7
  { result := some true,
    finalDoc := pyDictSet s8.1 "status" (Json.str "ready"),
    trace := s8.2 ++ [Effect.writeCheckpoint "status" "ready"] }

/-- Stages 1–2 of `MFLib.init` after the ready check: key generation
(writes `mfuser_keys = "ok"`), then the account installation, which on
success writes checkpoint key `"mfusers"` (not `"mfuser_accounts"`, the
key its own gate consults — see `c1`) and on failure returns `False`. -/
def initBootstrapStages (env : InitEnv) : InitOutcome :=
  let bss := env.bss
  let s1 : Doc × List Effect :=
    if hasVal bss "mfuser_keys" "ok" then (bss, [])
    else (pyDictSet bss "mfuser_keys" (Json.str "ok"),
          [Effect.generateKeys, Effect.writeCheckpoint "mfuser_keys" "ok"])
  if hasVal bss "mfuser_accounts" "ok" then
    initStages3on env bss s1.1 ([Effect.readBootstrapStatus] ++ s1.2)
  else if env.mfusersInstallSuccess then
    initStages3on env bss (pyDictSet s1.1 "mfusers" (Json.str "ok"))
      ([Effect.readBootstrapStatus] ++ s1.2
        ++ [Effect.installAccounts, Effect.writeCheckpoint "mfusers" "ok"])
  else
    { result := some false, finalDoc := s1.1,
      trace := [Effect.readBootstrapStatus] ++ s1.2 ++ [Effect.installAccounts] }

namespace MFLib

/-- Embedding of `MFLib.init`: no meas node → `return False` before the status read;
`status == "ready"` → refresh the mfuser private key and bare `return`
(`None`); otherwise run the bootstrap stages. -/
def init (env : InitEnv) : InitOutcome :=
  if env.measNodeExists = false then
    { result := some false, finalDoc := env.bss, trace := [] }
  else if hasVal env.bss "status" "ready" then
    { result := none, finalDoc := env.bss,
      trace := [Effect.readBootstrapStatus, Effect.getPrivateKey] }
  else
    initBootstrapStages env

end MFLib

theorem stageStep_hasVal (bss : Doc) (key : String) (eff : Effect) (s : Doc × List Effect)
    (k v : String) (h : k ≠ key) :
    hasVal (stageStep bss key eff s).1 k v = hasVal s.1 k v := by
  unfold stageStep
  split_ifs
  · rfl
  · exact hasVal_pyDictSet_ne s.1 key k (Json.str "ok") v h

theorem stageStep_trace_mem (bss : Doc) (key : String) (eff : Effect) (s : Doc × List Effect)
    (e : Effect) (h : e ∈ s.2) : e ∈ (stageStep bss key eff s).2 := by
  unfold stageStep
  split_ifs
  · exact h
  · exact List.mem_append_left _ h

theorem initStages3on_clone_runs (env : InitEnv) (bss d : Doc) (t : List Effect)
    (hrc : hasVal bss "repo_cloned" "ok" = false) :
    (initStages3on env bss d t).result = some true
  ∧ hasVal (initStages3on env bss d t).finalDoc "repo_cloned" "ok" = true
  ∧ hasVal (initStages3on env bss d t).finalDoc "status" "ready" = true
  ∧ Effect.cloneRepo env.cloneSuccess ∈ (initStages3on env bss d t).trace := by
  refine ⟨by simp [initStages3on], ?_, ?_, ?_⟩
  · simp only [initStages3on]
    rw [hrc]
    simp only [Bool.false_eq_true, if_false]
    split_ifs with h3
    · rw [hasVal_pyDictSet_ne _ "status" "repo_cloned" _ "ok" (by decide),
        stageStep_hasVal _ _ _ _ _ _ (by decide), stageStep_hasVal _ _ _ _ _ _ (by decide),
        stageStep_hasVal _ _ _ _ _ _ (by decide), stageStep_hasVal _ _ _ _ _ _ (by decide)]
      exact hasVal_pyDictSet_self _ "repo_cloned" "ok"
    · rw [hasVal_pyDictSet_ne _ "status" "repo_cloned" _ "ok" (by decide),
        stageStep_hasVal _ _ _ _ _ _ (by decide), stageStep_hasVal _ _ _ _ _ _ (by decide),
        stageStep_hasVal _ _ _ _ _ _ (by decide), stageStep_hasVal _ _ _ _ _ _ (by decide)]
      exact hasVal_pyDictSet_self _ "repo_cloned" "ok"
  · simp only [initStages3on]
    split_ifs with h3 h4 <;> exact hasVal_pyDictSet_self _ "status" "ready"
  · simp only [initStages3on]
    rw [hrc]
    simp only [Bool.false_eq_true, if_false]
    split_ifs with h3
    · apply List.mem_append_left
      apply stageStep_trace_mem
      apply stageStep_trace_mem
      apply stageStep_trace_mem
      apply stageStep_trace_mem
      exact List.mem_append_right _ (by simp)
    · apply List.mem_append_left
      apply stageStep_trace_mem
      apply stageStep_trace_mem
      apply stageStep_trace_mem
      apply stageStep_trace_mem
      exact List.mem_append_right _ (by simp)

/-- C1 (code bug).  Checkpoint monotonicity fails in the code itself: the
mfuser-accounts stage writes checkpoint key `"mfusers"` while its gate
consults `"mfuser_accounts"`, and the NAT64 stage writes the value
`"not needed"` (with a space) while its gate accepts only `"set"` or
`"not_needed"`; so the key/value a stage writes on completion does not
satisfy the completion predicate it consults, and a later `MFLib.init` run
holding those recorded terminal checkpoints re-executes both stages' side
effects. -/
theorem c1_checkpoint_key_mismatch :
    hasVal (pyDictSet [] "mfusers" (Json.str "ok")) "mfuser_accounts" "ok" = false
  ∧ hasVal (pyDictSet [] "ipv6_4_nat" (Json.str (set_DNS_all_nodes [false])))
      "ipv6_4_nat" "set" = false
  ∧ hasVal (pyDictSet [] "ipv6_4_nat" (Json.str (set_DNS_all_nodes [false])))
      "ipv6_4_nat" "not_needed" = false
  ∧ Effect.installAccounts ∈ (MFLib.init
      ⟨true, [("mfuser_keys", Json.str "ok"), ("mfusers", Json.str "ok")],
       [false], true, true⟩).trace
  ∧ Effect.setDNS ∈ (MFLib.init
      ⟨true, [("mfuser_keys", Json.str "ok"), ("mfuser_accounts", Json.str "ok"),
              ("ipv6_4_nat", Json.str "not needed")], [false], true, true⟩).trace :=
  ⟨by decide, by decide, by decide, by decide, by decide⟩

/-- C2.  When the bootstrap status holds `status == "ready"`, `MFLib.init`
only re-reads the status and refreshes the mfuser private key (both remote
reads) and returns immediately: no stage gate is examined, no stage side
effect runs, no checkpoint is written — the run's trace has no remote side
effect at all. -/
theorem c2_ready_short_circuit (env : InitEnv)
    (hm : env.measNodeExists = true)
    (hr : hasVal env.bss "status" "ready" = true) :
    MFLib.init env = { result := none, finalDoc := env.bss,
                       trace := [Effect.readBootstrapStatus, Effect.getPrivateKey] }
  ∧ (MFLib.init env).trace.filter Effect.isRemoteSideEffect = [] := by
  have key : MFLib.init env = { result := none, finalDoc := env.bss,
                                trace := [Effect.readBootstrapStatus,
                                          Effect.getPrivateKey] } := by
    unfold MFLib.init
    simp [hm, hr]
  refine ⟨key, ?_⟩
  rw [key]
  rfl

/-- Witness for C2 at a concrete environment whose status is ready. -/
theorem c2_ready_short_circuit_witness :
    MFLib.init ⟨true, [("status", Json.str "ready")], [false], true, true⟩
      = { result := none, finalDoc := [("status", Json.str "ready")],
          trace := [Effect.readBootstrapStatus, Effect.getPrivateKey] }
  ∧ (MFLib.init ⟨true, [("status", Json.str "ready")], [false], true, true⟩).trace.filter
      Effect.isRemoteSideEffect = [] :=
  c2_ready_short_circuit ⟨true, [("status", Json.str "ready")], [false], true, true⟩
    rfl (by decide)

/-- C3 counterexample.  A hard failure of `_clone_mf_repo` (stage 4) does
*not* abort the run: with every earlier stage checkpointed and the clone
failing, `MFLib.init` still writes `repo_cloned = "ok"`, continues to the
end, writes `status = "ready"` and returns `True`. -/
theorem c3_clone_failure_counterexample :
    (MFLib.init ⟨true, [("mfuser_keys", Json.str "ok"), ("mfuser_accounts", Json.str "ok"),
        ("ipv6_4_nat", Json.str "set")], [false], true, false⟩).result = some true
  ∧ hasVal (MFLib.init ⟨true, [("mfuser_keys", Json.str "ok"),
        ("mfuser_accounts", Json.str "ok"),
        ("ipv6_4_nat", Json.str "set")], [false], true, false⟩).finalDoc
      "repo_cloned" "ok" = true
  ∧ hasVal (MFLib.init ⟨true, [("mfuser_keys", Json.str "ok"),
        ("mfuser_accounts", Json.str "ok"),
        ("ipv6_4_nat", Json.str "set")], [false], true, false⟩).finalDoc
      "status" "ready" = true
  ∧ Effect.cloneRepo false ∈ (MFLib.init ⟨true, [("mfuser_keys", Json.str "ok"),
        ("mfuser_accounts", Json.str "ok"),
        ("ipv6_4_nat", Json.str "set")], [false], true, false⟩).trace :=
  ⟨by decide, by decide, by decide, by decide⟩

/-- C3 (amended).  A hard failure in stage 2 (mfuser account installation)
aborts the run with `False`, leaving the `status` key and the stage-2
checkpoint key untouched; a hard failure in stage 4 (`_clone_mf_repo`
returning failure) is tolerated like the remaining stages: its checkpoint
`repo_cloned = "ok"` is still written and the run continues to success,
writing `status = "ready"`. -/
theorem c3_stage2_aborts_stage4_tolerated (env : InitEnv)
    (hm : env.measNodeExists = true)
    (hnr : hasVal env.bss "status" "ready" = false) :
    (hasVal env.bss "mfuser_accounts" "ok" = false →
      env.mfusersInstallSuccess = false →
        (MFLib.init env).result = some false
        ∧ lookupDoc (MFLib.init env).finalDoc "status" = lookupDoc env.bss "status"
        ∧ lookupDoc (MFLib.init env).finalDoc "mfusers" = lookupDoc env.bss "mfusers"
        ∧ Effect.installAccounts ∈ (MFLib.init env).trace)
  ∧ (hasVal env.bss "mfuser_accounts" "ok" = true →
      hasVal env.bss "repo_cloned" "ok" = false →
        (MFLib.init env).result = some true
        ∧ hasVal (MFLib.init env).finalDoc "repo_cloned" "ok" = true
        ∧ hasVal (MFLib.init env).finalDoc "status" "ready" = true
        ∧ Effect.cloneRepo env.cloneSuccess ∈ (MFLib.init env).trace) := by
  have hini : MFLib.init env = initBootstrapStages env := by
    unfold MFLib.init
    simp [hm, hnr]
  refine ⟨?_, ?_⟩
  · intro ha hi
    rw [hini]
    by_cases h1 : hasVal env.bss "mfuser_keys" "ok" = true
    · have hred : initBootstrapStages env
          = { result := some false, finalDoc := env.bss,
              trace := [Effect.readBootstrapStatus, Effect.installAccounts] } := by
        simp [initBootstrapStages, ha, hi, h1]
      rw [hred]
      exact ⟨rfl, rfl, rfl, by simp⟩
    · have hred : initBootstrapStages env
          = { result := some false,
              finalDoc := pyDictSet env.bss "mfuser_keys" (Json.str "ok"),
              trace := [Effect.readBootstrapStatus, Effect.generateKeys,
                        Effect.writeCheckpoint "mfuser_keys" "ok",
                        Effect.installAccounts] } := by
        simp [initBootstrapStages, ha, hi, h1]
      rw [hred]
      exact ⟨rfl, lookupDoc_pyDictSet_ne env.bss "mfuser_keys" "status" _ (by decide),
        lookupDoc_pyDictSet_ne env.bss "mfuser_keys" "mfusers" _ (by decide), by simp⟩
  · intro ha hrc
    rw [hini]
    simp only [initBootstrapStages, ha, if_true]
    exact initStages3on_clone_runs env env.bss _ _ hrc

/-- Witness for C3 (amended) at concrete environments for both conjuncts. -/
theorem c3_stage2_aborts_stage4_tolerated_witness :
    ((MFLib.init ⟨true, [], [false], false, true⟩).result = some false
      ∧ lookupDoc (MFLib.init ⟨true, [], [false], false, true⟩).finalDoc "status"
          = lookupDoc ([] : Doc) "status"
      ∧ lookupDoc (MFLib.init ⟨true, [], [false], false, true⟩).finalDoc "mfusers"
          = lookupDoc ([] : Doc) "mfusers"
      ∧ Effect.installAccounts ∈ (MFLib.init ⟨true, [], [false], false, true⟩).trace)
  ∧ ((MFLib.init ⟨true, [("mfuser_accounts", Json.str "ok")], [false], true, false⟩).result
        = some true
      ∧ hasVal (MFLib.init
          ⟨true, [("mfuser_accounts", Json.str "ok")], [false], true, false⟩).finalDoc
          "repo_cloned" "ok" = true
      ∧ hasVal (MFLib.init
          ⟨true, [("mfuser_accounts", Json.str "ok")], [false], true, false⟩).finalDoc
          "status" "ready" = true
      ∧ Effect.cloneRepo false ∈ (MFLib.init
          ⟨true, [("mfuser_accounts", Json.str "ok")], [false], true, false⟩).trace) :=
  ⟨(c3_stage2_aborts_stage4_tolerated ⟨true, [], [false], false, true⟩ rfl
      (by decide)).1 (by decide) rfl,
   (c3_stage2_aborts_stage4_tolerated
      ⟨true, [("mfuser_accounts", Json.str "ok")], [false], true, false⟩ rfl
      (by decide)).2 (by decide) (by decide)⟩

/-! ## Network/Hosts Materializer (`mflib.py`: `MFLib._make_hosts_ini_file`)

The text artifact depends only on the discovery order of the
measurement-network interfaces, the per-network available-IP pools (one IP
popped per interface, in order) and the node names.  The IP assignment,
link-up and route installation are remote side effects that do not touch
the text and are omitted here; `Option` models the `IndexError` that
`available_ips.pop(0)` raises when a pool runs short. -/

/-- An interface of a measurement network, with its owning node's name. -/
structure MeasIface where
  nodeName : String
deriving DecidableEq

/-- A network of the slice, as seen by `_make_hosts_ini_file`. -/
structure MeasNetwork where
  name : String
  typ : String
  subnet : String
  gateway : String
  interfaces : List MeasIface
  availableIps : List String

/-- The filter of the source loop: `str(network_type) == "FABNetv4" and
network_name.startswith("l3_meas_net_")`. -/
def isMeasNetV4 (nw : MeasNetwork) : Bool :=
  nw.typ == "FABNetv4" && Core.startsWithList "l3_meas_net_".toList nw.name.toList

/-- One line of the hosts inventory for a node/address pair. -/
def hostLine (name ip : String) : String :=
  name ++ " ansible_host=" ++ ip ++ " hostname=" ++ ip ++ " ansible_ssh_user=mfuser"
    ++ " node_exporter_listen_ip=" ++ ip
    ++ " ansible_ssh_common_args=\x27-o StrictHostKeyChecking=no\x27"

/-- Per-network `(node name, assigned ip)` pairs: one available IP popped
per interface, in order; `none` when the pool is too short. -/
def networkHostPairs (nw : MeasNetwork) : Option (List (String × String)) :=
  if nw.interfaces.length ≤ nw.availableIps.length then
    some ((nw.interfaces.zip nw.availableIps).map (fun p => (p.1.nodeName, p.2)))
  else none

/-- All `(node name, ip)` pairs over the measurement networks, in discovery
order. -/
def allHostPairs : List MeasNetwork → Option (List (String × String))
  | [] => some []
  | nw :: rest =>
    if isMeasNetV4 nw then
      match networkHostPairs nw, allHostPairs rest with
      | some ps, some qs => some (ps ++ qs)
      | _, _ => none
    else allHostPairs rest

/-- The `"_meas_node" in host` test of the assembly loop. -/
def isMeasLine (line : String) : Bool :=
  Core.containsSubList "_meas_node".toList line.toList

/-- The fixed trailer (`hosts_tail`). -/
def hostsTail : String :=
  "\n\n[elk:children]\nMeas_Node\n\n[workers:children]\nExperiment_Nodes\n"

/-- One step of the assembly loop over host lines: a line containing
`"_meas_node"` goes (with its own header) into the meas text, any other
line is appended to the experiment-nodes text. -/
def hostsFoldStep (acc : String × String) (host : String) : String × String :=
  if isMeasLine host then (acc.1 ++ "[Meas_Node]\n" ++ host ++ "\n\n", acc.2)
  else (acc.1, acc.2 ++ host ++ "\n")

/-- The assembled `hosts.ini` text: meas section, experiment-nodes section,
fixed trailer. -/
def assembleHosts (lines : List String) : String :=
  ((lines.foldl hostsFoldStep ("", "[Experiment_Nodes]\n")).1)
    ++ ((lines.foldl hostsFoldStep ("", "[Experiment_Nodes]\n")).2) ++ hostsTail

/-- Embedding of `_make_hosts_ini_file`, text part: the inventory text produced for a
topology snapshot. -/
def make_hosts_ini_text (networks : List MeasNetwork) : Option String :=
  (allHostPairs networks).map
    (fun pairs => assembleHosts (pairs.map (fun p => hostLine p.1 p.2)))

theorem str_append_assoc (a b c : String) : a ++ b ++ c = a ++ (b ++ c) := by
  rcases a with ⟨la⟩
  rcases b with ⟨lb⟩
  rcases c with ⟨lc⟩
  exact congrArg String.mk (List.append_assoc la lb lc)

theorem str_append_empty (a : String) : a ++ "" = a := by
  rcases a with ⟨la⟩
  exact congrArg String.mk (List.append_nil la)

theorem str_empty_append (a : String) : "" ++ a = a := by
  rcases a with ⟨la⟩
  exact congrArg String.mk (List.nil_append la)

theorem str_toList_append (a b : String) : (a ++ b).toList = a.toList ++ b.toList := by
  rcases a with ⟨la⟩
  rcases b with ⟨lb⟩
  rfl

theorem str_toList_inj (a b : String) (h : a.toList = b.toList) : a = b := by
  rcases a with ⟨la⟩
  rcases b with ⟨lb⟩
  exact congrArg String.mk h

/-- Newline-terminated concatenation of lines (the experiment-nodes body). -/
def joinNl : List String → String
  | [] => ""
  | l :: ls => l ++ "\n" ++ joinNl ls

theorem joinNl_append (a b : List String) : joinNl (a ++ b) = joinNl a ++ joinNl b := by
  induction a with
  | nil => simp [joinNl, str_empty_append]
  | cons l ls ih => simp [joinNl, ih, str_append_assoc]

theorem hostsFold_nonMeas (ls : List String) (h e : String)
    (hnm : ∀ l ∈ ls, isMeasLine l = false) :
    ls.foldl hostsFoldStep (h, e) = (h, e ++ joinNl ls) := by
  induction ls generalizing e with
  | nil => simp [joinNl, str_append_empty]
  | cons l ls ih =>
    have hl : isMeasLine l = false := hnm l (by simp)
    have hrest : ∀ x ∈ ls, isMeasLine x = false := fun x hx => hnm x (by simp [hx])
    simp only [List.foldl_cons, hostsFoldStep, hl, Bool.false_eq_true, if_false]
    rw [ih (e ++ l ++ "\n") hrest]
    simp [joinNl, str_append_assoc]

theorem assembleHosts_split (pre post : List String) (m : String)
    (hm : isMeasLine m = true)
    (hpre : ∀ l ∈ pre, isMeasLine l = false)
    (hpost : ∀ l ∈ post, isMeasLine l = false) :
    assembleHosts (pre ++ m :: post)
      = "[Meas_Node]\n" ++ m ++ "\n\n" ++ ("[Experiment_Nodes]\n"
          ++ (joinNl pre ++ joinNl post) ++ hostsTail) := by
  have hfold : (pre ++ m :: post).foldl hostsFoldStep ("", "[Experiment_Nodes]\n")
      = ("" ++ "[Meas_Node]\n" ++ m ++ "\n\n",
         ("[Experiment_Nodes]\n" ++ joinNl pre) ++ joinNl post) := by
    rw [List.foldl_append, hostsFold_nonMeas pre _ _ hpre, List.foldl_cons]
    have hstep : hostsFoldStep ("", "[Experiment_Nodes]\n" ++ joinNl pre) m
        = ("" ++ "[Meas_Node]\n" ++ m ++ "\n\n", "[Experiment_Nodes]\n" ++ joinNl pre) := by
      simp [hostsFoldStep, hm]
    rw [hstep, hostsFold_nonMeas post _ _ hpost]
  unfold assembleHosts
  rw [hfold]
  simp [str_empty_append, str_append_assoc]

/-- First whitespace-free token of a character list. -/
def firstToken (s : List Char) : List Char :=
  s.takeWhile (fun c => c != ' ')

theorem takeWhile_append_stop (p : Char → Bool) (l₁ r : List Char) (x : Char)
    (h1 : ∀ c ∈ l₁, p c = true) (hx : p x = false) :
    (l₁ ++ x :: r).takeWhile p = l₁ := by
  induction l₁ with
  | nil => simp [List.takeWhile, hx]
  | cons c cs ih =>
    have hc : p c = true := h1 c (by simp)
    have hcs : ∀ d ∈ cs, p d = true := fun d hd => h1 d (by simp [hd])
    simp [List.takeWhile, hc, ih hcs]

theorem hostLine_toList_split (n i : String) :
    ∃ rest : List Char, (hostLine n i).toList = n.toList ++ ' ' :: rest := by
  have h1 : hostLine n i
      = n ++ (" ansible_host=" ++ (i ++ (" hostname=" ++ (i
          ++ (" ansible_ssh_user=mfuser node_exporter_listen_ip="
          ++ (i ++ " ansible_ssh_common_args=\x27-o StrictHostKeyChecking=no\x27")))))) := by
    unfold hostLine
    simp [str_append_assoc]
  have h2 : (" ansible_host=" ++ (i ++ (" hostname=" ++ (i
      ++ (" ansible_ssh_user=mfuser node_exporter_listen_ip="
      ++ (i ++ " ansible_ssh_common_args=\x27-o StrictHostKeyChecking=no\x27")))))).toList
      = ' ' :: ("ansible_host=".toList ++ (i ++ (" hostname=" ++ (i
      ++ (" ansible_ssh_user=mfuser node_exporter_listen_ip="
      ++ (i ++ " ansible_ssh_common_args=\x27-o StrictHostKeyChecking=no\x27"))))).toList) := by
    rw [str_toList_append]
    rfl
  refine ⟨"ansible_host=".toList ++ (i ++ (" hostname=" ++ (i
      ++ (" ansible_ssh_user=mfuser node_exporter_listen_ip="
      ++ (i ++ " ansible_ssh_common_args=\x27-o StrictHostKeyChecking=no\x27"))))).toList, ?_⟩
  rw [h1, str_toList_append, h2]

theorem firstToken_hostLine (n i : String) (hn : ' ' ∉ n.toList) :
    firstToken (hostLine n i).toList = n.toList := by
  obtain ⟨rest, hr⟩ := hostLine_toList_split n i
  rw [firstToken, hr]
  apply takeWhile_append_stop
  · intro c hc
    have : c ≠ ' ' := fun h => hn (h ▸ hc)
    simpa using this
  · simp

/-- C9.  Hosts inventory determinism and grouping: for a topology snapshot
whose discovery-ordered `(node, ip)` pairs contain exactly one line
matching the control node (`"_meas_node"`), the generated text places that
line exactly once under its own `[Meas_Node]` group, followed by the
`[Experiment_Nodes]` group holding exactly one line per remaining pair, in
discovery order, and the fixed trailer; the text is a function of the
snapshot (same snapshot, same text); and under distinct space-free node
names the experiment lines contain no duplicates. -/
theorem c9_hosts_inventory (networks : List MeasNetwork)
    (pre post : List (String × String)) (mp : String × String)
    (hseq : allHostPairs networks = some (pre ++ mp :: post))
    (hm : isMeasLine (hostLine mp.1 mp.2) = true)
    (hpre : ∀ p ∈ pre, isMeasLine (hostLine p.1 p.2) = false)
    (hpost : ∀ p ∈ post, isMeasLine (hostLine p.1 p.2) = false) :
    make_hosts_ini_text networks
      = some ("[Meas_Node]\n" ++ hostLine mp.1 mp.2 ++ "\n\n" ++ ("[Experiment_Nodes]\n"
          ++ (joinNl (pre.map (fun p => hostLine p.1 p.2))
              ++ joinNl (post.map (fun p => hostLine p.1 p.2))) ++ hostsTail))
  ∧ (∀ networks₂ : List MeasNetwork, networks₂ = networks →
        make_hosts_ini_text networks₂ = make_hosts_ini_text networks)
  ∧ (((pre ++ post).map Prod.fst).Nodup →
      (∀ p ∈ pre ++ post, ' ' ∉ p.1.toList) →
      ((pre ++ post).map (fun p => hostLine p.1 p.2)).Nodup) := by
  refine ⟨?_, fun n2 h => by rw [h], ?_⟩
  · unfold make_hosts_ini_text
    rw [hseq]
    have hmap : (pre ++ mp :: post).map (fun p => hostLine p.1 p.2)
        = pre.map (fun p => hostLine p.1 p.2) ++ hostLine mp.1 mp.2
            :: post.map (fun p => hostLine p.1 p.2) := by
      simp
    have hsplit := assembleHosts_split
      (pre.map (fun p => hostLine p.1 p.2)) (post.map (fun p => hostLine p.1 p.2))
      (hostLine mp.1 mp.2) hm
      (by intro l hl
          obtain ⟨p, hp, hpl⟩ := List.mem_map.mp hl
          exact hpl ▸ hpre p hp)
      (by intro l hl
          obtain ⟨p, hp, hpl⟩ := List.mem_map.mp hl
          exact hpl ▸ hpost p hp)
    show some (assembleHosts ((pre ++ mp :: post).map (fun p => hostLine p.1 p.2))) = _
    rw [hmap, hsplit]
  · intro hnames hns
    have hmapEq : (((pre ++ post).map (fun p => hostLine p.1 p.2)).map
        (fun s => firstToken s.toList))
        = ((pre ++ post).map Prod.fst).map String.toList := by
      rw [List.map_map, List.map_map]
      apply List.map_congr_left
      intro p hp
      exact firstToken_hostLine p.1 p.2 (hns p hp)
    have hnd2 : (((pre ++ post).map Prod.fst).map String.toList).Nodup :=
      List.Nodup.map (fun a b hab => str_toList_inj a b hab) hnames
    have hnd3 : (((pre ++ post).map (fun p => hostLine p.1 p.2)).map
        (fun s => firstToken s.toList)).Nodup := by
      rw [hmapEq]
      exact hnd2
    exact List.Nodup.of_map _ hnd3

/-- Witness for C9 at a one-network topology: 1 control node and 2
experiment nodes, one measurement interface each. -/
theorem c9_hosts_inventory_witness :
    make_hosts_ini_text [⟨"l3_meas_net_STAR", "FABNetv4", "10.0.1.0/24", "10.0.1.1",
        [⟨"node1"⟩, ⟨"_meas_node"⟩, ⟨"node2"⟩], ["10.0.1.2", "10.0.1.3", "10.0.1.4"]⟩]
      = some ("[Meas_Node]\n" ++ hostLine "_meas_node" "10.0.1.3" ++ "\n\n"
          ++ ("[Experiment_Nodes]\n"
          ++ (joinNl ([("node1", "10.0.1.2")].map (fun p => hostLine p.1 p.2))
              ++ joinNl ([("node2", "10.0.1.4")].map (fun p => hostLine p.1 p.2)))
          ++ hostsTail))
  ∧ (∀ networks₂ : List MeasNetwork,
        networks₂ = [⟨"l3_meas_net_STAR", "FABNetv4", "10.0.1.0/24", "10.0.1.1",
          [⟨"node1"⟩, ⟨"_meas_node"⟩, ⟨"node2"⟩], ["10.0.1.2", "10.0.1.3", "10.0.1.4"]⟩] →
        make_hosts_ini_text networks₂
          = make_hosts_ini_text [⟨"l3_meas_net_STAR", "FABNetv4", "10.0.1.0/24", "10.0.1.1",
              [⟨"node1"⟩, ⟨"_meas_node"⟩, ⟨"node2"⟩], ["10.0.1.2", "10.0.1.3", "10.0.1.4"]⟩])
  ∧ ((([("node1", "10.0.1.2")] ++ [("node2", "10.0.1.4")]).map Prod.fst).Nodup →
      (∀ p ∈ [("node1", "10.0.1.2")] ++ [("node2", "10.0.1.4")], ' ' ∉ p.1.toList) →
      (([("node1", "10.0.1.2")] ++ [("node2", "10.0.1.4")]).map
        (fun p => hostLine p.1 p.2)).Nodup) :=
  c9_hosts_inventory
    [⟨"l3_meas_net_STAR", "FABNetv4", "10.0.1.0/24", "10.0.1.1",
      [⟨"node1"⟩, ⟨"_meas_node"⟩, ⟨"node2"⟩], ["10.0.1.2", "10.0.1.3", "10.0.1.4"]⟩]
    [("node1", "10.0.1.2")] [("node2", "10.0.1.4")] ("_meas_node", "10.0.1.3")
    (by decide) (by decide) (by decide) (by decide)

end Mflib
